import Mathlib

/-!
Verification of the doceXTENDED document-verification pipeline.

Shallow embedding of the core components:
* `DocumentParser.validate_document_data` and the regex extraction helpers
  (backend/services/document_parser.py),
* `OfflineAIDetector.detect` and its five analyzers
  (backend/services/offline_ai_detector.py),
* `DocumentProcessor.process_document` (backend/services/document_processor.py),
* `process_document_background` (backend/api/routes.py).

External library calls (PIL/cv2 measurements, cloud service responses, face
library responses) are represented by explicit inputs; the repository's own
control flow and arithmetic are translated statement by statement.
-/

namespace DocExt

/-- A field map: ordered association list from field name to extracted value,
mirroring the Python dict passed between stages. -/
abbrev FieldMap := List (String × String)

/-- `f in data` for a Python dict modelled as an association list. -/
def FieldMap.mem (data : FieldMap) (f : String) : Bool :=
  (data.lookup f).isSome

/-- `data[f]` is falsy: the key is present with an empty-string value. -/
def FieldMap.falsy (data : FieldMap) (f : String) : Bool :=
  data.lookup f == some ""

/-- Calendar date (year, month, day), standing for a Python `datetime` at
midnight; `datetime.strptime` with the date-only formats used by the parser
always yields midnight. -/
structure SDate where
  y : Nat
  m : Nat
  d : Nat
deriving Repr, DecidableEq

/-- Lexicographic strict order on dates, matching `datetime` comparison of
midnight values. -/
def SDate.lt (a b : SDate) : Bool :=
  a.y < b.y || (a.y == b.y && (a.m < b.m || (a.m == b.m && a.d < b.d)))

/-- Gregorian leap year rule used by `datetime`. -/
def isLeap (y : Nat) : Bool :=
  y % 4 == 0 && (y % 100 != 0 || y % 400 == 0)

/-- Days in a month, as enforced by the `datetime` constructor. -/
def daysInMonth (y m : Nat) : Nat :=
  if m == 2 then (if isLeap y then 29 else 28)
  else if m == 4 || m == 6 || m == 9 || m == 11 then 30
  else 31

/-- Validity check performed by the `datetime(year, month, day)` constructor:
year 1..9999, month 1..12, day within the month. -/
def validDate (y m d : Nat) : Bool :=
  1 ≤ y && y ≤ 9999 && 1 ≤ m && m ≤ 12 && 1 ≤ d && d ≤ daysInMonth y m

def isDigitChar (c : Char) : Bool := '0' ≤ c && c ≤ '9'

def digitVal (c : Char) : Nat := c.toNat - 48

/-- Candidates for the `%d` directive of `strptime` (regex
`3[01]|[12]\d|0[1-9]|[1-9]`): a two-digit day 01..31 when the next two
characters allow it, otherwise a single digit 1..9; listed in the regex
backtracking order. -/
def dayCands : List Char → List (Nat × List Char)
  | c1 :: c2 :: rest =>
      (if isDigitChar c1 && isDigitChar c2 &&
          1 ≤ digitVal c1 * 10 + digitVal c2 && digitVal c1 * 10 + digitVal c2 ≤ 31 then
        [(digitVal c1 * 10 + digitVal c2, rest)]
      else []) ++
      (if isDigitChar c1 && 1 ≤ digitVal c1 then [(digitVal c1, c2 :: rest)] else [])
  | [c1] => if isDigitChar c1 && 1 ≤ digitVal c1 then [(digitVal c1, [])] else []
  | [] => []

/-- Candidates for the `%m` directive (regex `1[0-2]|0[1-9]|[1-9]`). -/
def monthCands : List Char → List (Nat × List Char)
  | c1 :: c2 :: rest =>
      (if isDigitChar c1 && isDigitChar c2 &&
          1 ≤ digitVal c1 * 10 + digitVal c2 && digitVal c1 * 10 + digitVal c2 ≤ 12 then
        [(digitVal c1 * 10 + digitVal c2, rest)]
      else []) ++
      (if isDigitChar c1 && 1 ≤ digitVal c1 then [(digitVal c1, c2 :: rest)] else [])
  | [c1] => if isDigitChar c1 && 1 ≤ digitVal c1 then [(digitVal c1, [])] else []
  | [] => []

/-- `%Y`: exactly four digits, which must exhaust the input
(`strptime` rejects unconverted trailing data). -/
def year4Match : List Char → Option Nat
  | [a, b, c, d] =>
      if isDigitChar a && isDigitChar b && isDigitChar c && isDigitChar d then
        some (digitVal a * 1000 + digitVal b * 100 + digitVal c * 10 + digitVal d)
      else none
  | _ => none

/-- `%y`: exactly two digits exhausting the input, mapped by `strptime` to
1969..2068 (00..68 ⇒ 2000s, 69..99 ⇒ 1900s). -/
def year2Match : List Char → Option Nat
  | [a, b] =>
      if isDigitChar a && isDigitChar b then
        let v := digitVal a * 10 + digitVal b
        some (if v ≤ 68 then 2000 + v else 1900 + v)
      else none
  | _ => none

/-- Regex phase of `strptime` for a `day sep month sep year` format: first
match in backtracking order, returning the (day, month, year) fields. -/
def matchDMY (sep : Char) (year4 : Bool) (s : List Char) : Option (Nat × Nat × Nat) :=
  (dayCands s).findSome? fun (d, r1) =>
    match r1 with
    | c :: r2 =>
        if c == sep then
          (monthCands r2).findSome? fun (m, r3) =>
            match r3 with
            | c2 :: r4 =>
                if c2 == sep then
                  (if year4 then year4Match r4 else year2Match r4).map fun y => (d, m, y)
                else none
            | [] => none
        else none
    | [] => none

/-- One `strptime(s, fmt)` attempt: the regex phase commits to its first
match, then the `datetime` constructor validates the field values; an invalid
date raises, which the caller treats as failure of this format. -/
def strptimeDMY (sep : Char) (year4 : Bool) (s : String) : Option SDate :=
  match matchDMY sep year4 s.toList with
  | some (d, m, y) => if validDate y m d then some ⟨y, m, d⟩ else none
  | none => none

/-- The ordered format list of `validate_document_data`:
`['%d/%m/%Y', '%d-%m-%Y', '%d/%m/%y', '%d-%m-%y']`, first success wins. -/
def parseDob (s : String) : Option SDate :=
  match strptimeDMY '/' true s with
  | some dte => some dte
  | none =>
    match strptimeDMY '-' true s with
    | some dte => some dte
    | none =>
      match strptimeDMY '/' false s with
      | some dte => some dte
      | none => strptimeDMY '-' false s

/-- `DocumentParser.REQUIRED_FIELDS` lookup with `.get(document_type, [])`
semantics. -/
def REQUIRED_FIELDS (document_type : String) : List String :=
  if document_type == "aadhaar" then ["name", "aadhaar_number", "dob"]
  else if document_type == "pan" then ["name", "pan_number", "father_name"]
  else if document_type == "driving_license" then ["name", "license_number", "dob"]
  else if document_type == "passport" then ["name", "passport_number", "dob"]
  else if document_type == "voter_id" then ["name", "voter_id"]
  else []

def isUpperAlpha (c : Char) : Bool := 'A' ≤ c && c ≤ 'Z'

/-- `re.match(r'^[A-Z]{5}[0-9]{4}[A-Z]$', s)`: five capitals, four digits,
one capital; `$` also accepts one trailing newline. -/
def panFormatOk (s : String) : Bool :=
  match s.toList with
  | [a, b, c, d, e, f, g, h, i, j] =>
      isUpperAlpha a && isUpperAlpha b && isUpperAlpha c && isUpperAlpha d && isUpperAlpha e &&
      isDigitChar f && isDigitChar g && isDigitChar h && isDigitChar i && isUpperAlpha j
  | [a, b, c, d, e, f, g, h, i, j, nl] =>
      isUpperAlpha a && isUpperAlpha b && isUpperAlpha c && isUpperAlpha d && isUpperAlpha e &&
      isDigitChar f && isDigitChar g && isDigitChar h && isDigitChar i && isUpperAlpha j &&
      nl == '\n'
  | _ => false

/-- `re.match(r'^\d{12}$', s)`: twelve digits (`$` also accepts one trailing
newline). -/
def twelveDigitsOk (s : String) : Bool :=
  match s.toList with
  | l =>
      (l.length == 12 && l.all isDigitChar) ||
      (l.length == 13 && (l.take 12).all isDigitChar && l.getLast? == some '\n')

/-- `re.match(r'^[A-Z]\d{7}$', s)` for passports. -/
def passportFormatOk (s : String) : Bool :=
  match s.toList with
  | a :: rest =>
      isUpperAlpha a &&
      ((rest.length == 7 && rest.all isDigitChar) ||
       (rest.length == 8 && (rest.take 7).all isDigitChar && rest.getLast? == some '\n'))
  | [] => false

/-- `s.replace(' ', '')`. -/
def stripSpaces (s : String) : String :=
  ⟨s.toList.filter (fun c => !(c == ' '))⟩

/-- `ValidationReport` returned by `validate_document_data`. -/
structure ValidationReport where
  is_valid : Bool
  errors : List String
  warnings : List String
  required_fields_present : Bool
deriving Repr, DecidableEq

/-- Embedding of `DocumentParser.validate_document_data(data, document_type)`.
The ambient clock read by `datetime.now()` is made explicit as `now` (its
time-of-day component cannot affect the strict comparison against a midnight
value, so a calendar date suffices). -/
def validate_document_data (data : FieldMap) (document_type : String) (now : SDate) :
    ValidationReport :=
  let required := REQUIRED_FIELDS document_type
  let errors₀ := required.filterMap fun f =>
    if !(data.mem f) || data.falsy f then some ("Missing required field: " ++ f) else none
  let errors₁ := errors₀ ++
    (if document_type == "pan" then
      match data.lookup "pan_number" with
      | some v => if !(panFormatOk v) then ["Invalid PAN number format"] else []
      | none => []
    else [])
  let errors₂ := errors₁ ++
    (if document_type == "aadhaar" then
      match data.lookup "aadhaar_number" with
      | some v => if !(twelveDigitsOk (stripSpaces v)) then ["Invalid Aadhaar number format"] else []
      | none => []
    else [])
  let errors₃ := errors₂ ++
    (if document_type == "passport" then
      match data.lookup "passport_number" with
      | some v => if !(passportFormatOk v) then ["Invalid passport number format"] else []
      | none => []
    else [])
  let dobStep : List String × List String :=
    match data.lookup "dob" with
    | some v =>
        match parseDob v with
        | none => ([], ["Could not validate date of birth format"])
        | some dte =>
            if SDate.lt now dte then (["Date of birth cannot be in the future"], [])
            else ([], [])
    | none => ([], [])
  let errors := errors₃ ++ dobStep.1
  let warnings := dobStep.2
  { is_valid := errors.isEmpty
    errors := errors
    warnings := warnings
    required_fields_present := required.all fun f => data.mem f }

/-! ### Offline AI detector (backend/services/offline_ai_detector.py)

The five analyzers measure the image with PIL/cv2 and then score the
measurements with plain arithmetic and comparisons.  The measurements are
made explicit inputs (an `ImageFeatures` record); the scoring logic is the
translated source.  Real-valued measurements use `ℚ`. -/

/-- Inputs of `_check_exif_metadata`: whether `_getexif()` raised, returned
`None`, whether some string tag contains an AI-software keyword, and whether
tag 271/272 (Make/Model) is present. -/
structure ExifInfo where
  readError : Bool
  present : Bool
  hasAiKeyword : Bool
  hasCameraTag : Bool
deriving Repr, DecidableEq

/-- `OfflineAIDetector._check_exif_metadata`: +15 when EXIF is absent, else
+25 for an AI-software keyword and +10 for missing camera make/model; +10 when
reading EXIF raises; capped by `min(score, 25)`. -/
def check_exif_metadata (e : ExifInfo) : Nat :=
  let score :=
    if e.readError then 10
    else if !e.present then 15
    else (if e.hasAiKeyword then 25 else 0) + (if !e.hasCameraTag then 10 else 0)
  min score 25

/-- Inputs of `_analyze_frequency_domain`: whether `cv2.imread` returned
`None` or the body raised, and the high/low frequency energy quotient. -/
structure FreqInfo where
  loadFail : Bool
  failed : Bool
  freqRat : ℚ
deriving Repr, DecidableEq

/-- `OfflineAIDetector._analyze_frequency_domain`: ratio below 0.01 scores 20,
below 0.05 scores 10; unreadable image or an internal exception contributes 0;
capped by `min(score, 20)`. -/
def analyze_frequency_domain (f : FreqInfo) : Nat :=
  if f.loadFail || f.failed then 0
  else
    let score := if f.freqRat < (1 : ℚ)/100 then 20
      else if f.freqRat < (5 : ℚ)/100 then 10
      else 0
    min score 20

/-- Inputs of `_analyze_histogram`: failure flag, mean and standard deviation
of the three per-channel histogram entropies. -/
structure HistInfo where
  failed : Bool
  avgEntropy : ℚ
  stdEntropy : ℚ
deriving Repr, DecidableEq

/-- `OfflineAIDetector._analyze_histogram`: mean entropy above 7.5 scores 15,
above 7.0 scores 8; entropies with standard deviation below 0.1 add 5; an
internal exception contributes 0; capped by `min(score, 15)`. -/
def analyze_histogram (h : HistInfo) : Nat :=
  if h.failed then 0
  else
    let score :=
      (if h.avgEntropy > (15 : ℚ)/2 then 15
       else if h.avgEntropy > 7 then 8
       else 0) +
      (if h.stdEntropy < (1 : ℚ)/10 then 5 else 0)
    min score 15

/-- Inputs of `_analyze_noise_patterns`: load/exception flags, the standard
deviation of the high-pass noise residual, and the standard deviation of the
four quadrant noise deviations. -/
structure NoiseInfo where
  loadFail : Bool
  failed : Bool
  noiseStd : ℚ
  stdVariation : ℚ
deriving Repr, DecidableEq

/-- `OfflineAIDetector._analyze_noise_patterns`: residual deviation below 2.0
scores 15, above 20.0 scores 10; quadrant deviations varying by less than 0.5
add 10; unreadable image or an internal exception contributes 0; capped by
`min(score, 25)`. -/
def analyze_noise_patterns (n : NoiseInfo) : Nat :=
  if n.loadFail || n.failed then 0
  else
    let score :=
      (if n.noiseStd < 2 then 15
       else if n.noiseStd > 20 then 10
       else 0) +
      (if n.stdVariation < (1 : ℚ)/2 then 10 else 0)
    min score 25

/-- Inputs of `_check_jpeg_artifacts`: the PIL image format, whether the image
is at least 16×16, whether converting to an array raised (keeping only the
format sub-score), and the mean 8×8 block variance of the sampled region. -/
structure ArtifactInfo where
  formatName : String
  bigEnough : Bool
  arrayFail : Bool
  avgBlockVar : ℚ
deriving Repr, DecidableEq

/-- `OfflineAIDetector._check_jpeg_artifacts`: +10 for PNG, +5 for any other
non-JPEG format; when the image is at least 16×16, block variance below 5.0
adds 15 and below 15.0 adds 8; capped by `min(score, 20)`. -/
def check_jpeg_artifacts (a : ArtifactInfo) : Nat :=
  let fmtScore :=
    if a.formatName == "PNG" then 10
    else if !(a.formatName == "JPEG") then 5
    else 0
  if a.arrayFail then min fmtScore 20
  else
    let score := fmtScore +
      (if a.bigEnough then
        (if a.avgBlockVar < 5 then 15
         else if a.avgBlockVar < 15 then 8
         else 0)
      else 0)
    min score 20

/-- All analyzer inputs for one image, plus whether `Image.open` itself raises
(the only uncaught exception site of `detect`). -/
structure ImageFeatures where
  openFail : Bool
  exif : ExifInfo
  freq : FreqInfo
  hist : HistInfo
  noise : NoiseInfo
  artifact : ArtifactInfo
deriving Repr, DecidableEq

/-- Sub-score record stored under `authenticity.scores`. -/
structure SubScores where
  exif : Nat
  frequency : Nat
  histogram : Nat
  noise : Nat
  artifacts : Nat
  total : Nat
deriving Repr, DecidableEq

/-- `AuthenticityVerdict` as produced by the detector / cloud check. -/
structure Authenticity where
  is_ai_generated : Bool
  confidence_score : Nat
  explanation : String
  scores : Option SubScores
deriving Repr, DecidableEq

/-- `OfflineAIDetector._generate_explanation`: findings for sub-scores over
their notable thresholds, a four-tier confidence label from the total, joined
into one sentence. -/
def generate_explanation (exif freq hist noise artifact total : Nat) : String :=
  let findings :=
    (if exif ≥ 15 then ["missing or suspicious EXIF metadata"] else []) ++
    (if freq ≥ 10 then ["unusual frequency domain patterns"] else []) ++
    (if hist ≥ 10 then ["unnatural color distribution"] else []) ++
    (if noise ≥ 15 then ["artificial noise characteristics"] else []) ++
    (if artifact ≥ 15 then ["lack of natural JPEG compression artifacts"] else [])
  let confidence :=
    if total ≥ 60 then "High"
    else if total ≥ 40 then "Medium"
    else if total ≥ 20 then "Low"
    else "Very Low"
  let verdict :=
    if total ≥ 60 then "This image strongly shows characteristics of AI generation"
    else if total ≥ 40 then "This image shows multiple indicators of possible AI generation"
    else if total ≥ 20 then "This image shows some suspicious characteristics"
    else "This image appears to be authentic with natural characteristics"
  if findings.isEmpty then verdict ++ ". (Offline analysis)"
  else verdict ++ ". " ++ confidence ++ " confidence based on: " ++
    String.intercalate ", " findings ++ ". (Offline analysis)"

/-- Result of `OfflineAIDetector.detect`. -/
structure DetectResult where
  success : Bool
  authenticity : Option Authenticity
  errorMsg : Option String
deriving Repr, DecidableEq

/-- `OfflineAIDetector.detect`: runs the five analyzers, sums their scores,
classifies the total at the cutoff 40, and computes
`min(100, int((total / 120) * 100))`; `int` truncates, which on the reachable
totals 0..105 coincides with natural division `total * 100 / 120`.  When
`Image.open` raises, the surrounding handler returns a failure record. -/
def detect (img : ImageFeatures) : DetectResult :=
  if img.openFail then
    { success := false, authenticity := none, errorMsg := some "Offline detection failed: cannot open image" }
  else
    let exif_score := check_exif_metadata img.exif
    let freq_score := analyze_frequency_domain img.freq
    let histogram_score := analyze_histogram img.hist
    let noise_score := analyze_noise_patterns img.noise
    let artifact_score := check_jpeg_artifacts img.artifact
    let total_score := exif_score + freq_score + histogram_score + noise_score + artifact_score
    let is_ai_generated := total_score ≥ 40
    let confidence_score := min 100 (total_score * 100 / 120)
    { success := true
      authenticity := some
        { is_ai_generated := is_ai_generated
          confidence_score := confidence_score
          explanation := generate_explanation exif_score freq_score histogram_score
            noise_score artifact_score total_score
          scores := some
            { exif := exif_score, frequency := freq_score, histogram := histogram_score
              noise := noise_score, artifacts := artifact_score, total := total_score } }
      errorMsg := none }

/-! ### Pipeline orchestrator (backend/services/document_processor.py)

`process_document` calls collaborator services (`check_image_authenticity`,
`extract_structured_data`, `validate_document`, `detect_faces`,
`analyze_face_quality`, `detect_liveness`).  Each call site is modelled as an
`Outcome`: either the call returns a response record or it raises; the single
`try`/`except` of `process_document` is translated as an `Except` chain whose
error value is an already-finalized FAILED result. -/

/-- Result of one collaborator call: a normal return or a raised exception. -/
inductive Outcome (α : Type) where
  | raises (msg : String)
  | returns (v : α)
deriving Repr, DecidableEq

/-- The call returned normally. -/
def Outcome.isReturns : Outcome α → Bool
  | .raises _ => false
  | .returns _ => true

/-- Response of `check_image_authenticity`. -/
structure AuthResp where
  success : Bool
  authenticity : Authenticity
deriving Repr, DecidableEq

/-- Response of `extract_structured_data` (fields read by the orchestrator,
with the `.get` defaults folded in). -/
structure ExtractResp where
  success : Bool
  parsed_data : FieldMap
  raw_response : String
  error : String
deriving Repr, DecidableEq

/-- Response of the Gemini `validate_document` call (payload opaque). -/
structure GvResp where
  success : Bool
  payload : String
deriving Repr, DecidableEq

/-- Response of `detect_faces` (fields read by the orchestrator). -/
structure FaceResp where
  success : Bool
  face_count : Nat
  error : String
deriving Repr, DecidableEq

/-- Face-stage output stored in the result: the count plus whether the
opaque quality and liveness sub-results were attached. -/
structure FaceDet where
  face_count : Nat
  hasQuality : Bool
  hasLiveness : Bool
deriving Repr, DecidableEq

/-- Modelled from the spec: `DocumentParser.verify_bill_total`, whose body is
absent from the provided sources (only its caller and its result keys —
`success`, `stated_total`, `calculated_total`, `is_total_correct`,
`discrepancy` — appear).  Per §4.1/§4.3 of the spec it compares the stated
total against the sum of the line items. -/
structure BillVerification where
  success : Bool
  stated_total : ℚ
  calculated_total : ℚ
  is_total_correct : Bool
  discrepancy : ℚ
deriving Repr, DecidableEq

/-- Digits of a decimal literal to a natural number. -/
def digitsToNat? (l : List Char) : Option Nat :=
  if !l.isEmpty && l.all isDigitChar then
    some (l.foldl (fun acc c => acc * 10 + digitVal c) 0)
  else none

/-- Parse a non-negative decimal numeral (`"12"`, `"12.50"`) into `ℚ`. -/
def parseDecimal (s : String) : Option ℚ :=
  let l := s.toList
  let intPart := l.takeWhile (fun c => !(c == '.'))
  let rest := l.dropWhile (fun c => !(c == '.'))
  match rest with
  | [] => (digitsToNat? intPart).map fun n => (n : ℚ)
  | _ :: frac =>
      match digitsToNat? intPart, digitsToNat? frac with
      | some n, some f => some ((n : ℚ) + (f : ℚ) / ((10 : ℚ) ^ frac.length))
      | _, _ => none

/-- Modelled from the spec: the total-consistency check of
`verify_bill_total` — the stated total is the numeric value of the `total`
field, the line items are the other numeric-valued fields, and the check
succeeds when a stated total is present, comparing it to the items' sum. -/
def verify_bill_total (data : FieldMap) : BillVerification :=
  let stated := (data.lookup "total").bind parseDecimal
  let items := data.filterMap fun kv =>
    if kv.1 == "total" then none else parseDecimal kv.2
  match stated with
  | none => { success := false, stated_total := 0, calculated_total := 0
              is_total_correct := false, discrepancy := 0 }
  | some t =>
      let calcTotal := items.foldl (· + ·) 0
      { success := true, stated_total := t, calculated_total := calcTotal
        is_total_correct := t == calcTotal, discrepancy := t - calcTotal }

/-- Modelled from the spec: `GeminiOCRService.check_image_authenticity`,
whose body is absent from the provided sources (only its caller appears).
Per §4.1/§6 the cloud verdict is used when the cloud call succeeds
(`cloud = some a`); when the cloud call fails or is disabled
(`cloud = none`) the local heuristic scorer `OfflineAIDetector.detect` is
the fallback. -/
def check_image_authenticity (cloud : Option Authenticity) (img : ImageFeatures) :
    AuthResp :=
  match cloud with
  | some a => { success := true, authenticity := a }
  | none =>
      let d := detect img
      match d.authenticity with
      | some a => { success := d.success, authenticity := a }
      | none =>
          { success := false
            authenticity :=
              { is_ai_generated := false, confidence_score := 0
                explanation := "", scores := none } }

/-- One run's collaborator behaviour: the outcome of each external call the
orchestrator can make, plus the calendar date `datetime.now()` reads during
validation. -/
structure Env where
  checkAuth : Outcome AuthResp
  extractStructured : Outcome ExtractResp
  geminiValidate : Outcome GvResp
  detectFaces : Outcome FaceResp
  faceQuality : Outcome Bool
  faceLiveness : Outcome Bool
  now : SDate
deriving Repr, DecidableEq

/-- No collaborator call of this run raises. -/
def Env.noRaise (env : Env) : Bool :=
  env.checkAuth.isReturns && env.extractStructured.isReturns &&
  env.geminiValidate.isReturns && env.detectFaces.isReturns &&
  env.faceQuality.isReturns && env.faceLiveness.isReturns

/-- The result record built by `process_document` (fields the pipeline
writes; the timestamp string is omitted). -/
structure PResult where
  document_type : String
  overall_status : String
  ocr_success : Bool
  parsed_data : FieldMap
  validation : Option ValidationReport
  gemini_validation : Option String
  bill_verification : Option BillVerification
  face_detection : Option FaceDet
  authenticity_check : Option Authenticity
  errors : List String
  warnings : List String
deriving Repr, DecidableEq

/-- The freshly initialized result dict of `process_document`. -/
def initResult (document_type : String) : PResult :=
  { document_type := document_type, overall_status := "processing"
    ocr_success := false, parsed_data := [], validation := none
    gemini_validation := none, bill_verification := none
    face_detection := none, authenticity_check := none
    errors := [], warnings := [] }

/-- The `except` clause of `process_document`: keep all mutations made so
far, set `overall_status` to `failed`, append the failure message. -/
def failWith (msg : String) (r : PResult) : PResult :=
  { r with overall_status := "failed"
           errors := r.errors ++ ["Processing failed: " ++ msg] }

/-- Step 1 of `process_document`: authenticity check. -/
def stepAuthenticity (env : Env) (r : PResult) : Except PResult PResult :=
  match env.checkAuth with
  | .raises m => .error (failWith m r)
  | .returns a =>
      if a.success then
        let r := { r with authenticity_check := some a.authenticity }
        if a.authenticity.is_ai_generated then
          .ok { r with warnings := r.warnings ++ ["Image may be AI-generated."] }
        else .ok r
      else
        .ok { r with warnings := r.warnings ++ ["Could not perform image authenticity check."] }

/-- Step 2 of `process_document`: OCR extraction.  With `use_gemini = false`
nothing runs — the PaddleOCR fallback branch is commented out in the
source. -/
def stepExtraction (env : Env) (use_gemini : Bool) (r : PResult) :
    Except PResult PResult :=
  if use_gemini then
    match env.extractStructured with
    | .raises m => .error (failWith m r)
    | .returns o =>
        if o.success then
          let r := { r with ocr_success := true, parsed_data := o.parsed_data }
          match env.geminiValidate with
          | .raises m => .error (failWith m r)
          | .returns v =>
              if v.success then .ok { r with gemini_validation := some v.payload }
              else .ok r
        else .ok { r with errors := r.errors ++ ["Gemini OCR failed: " ++ o.error] }
  else .ok r

/-- Step 3 of `process_document`: validation of the parsed data, plus the
bill total check for `document_type == 'bill'`; no collaborator call, so this
step cannot raise. -/
def stepValidation (now : SDate) (document_type : String) (r : PResult) : PResult :=
  if !r.parsed_data.isEmpty then
    let validation := validate_document_data r.parsed_data document_type now
    let r := { r with validation := some validation }
    let r :=
      if !validation.is_valid then { r with errors := r.errors ++ validation.errors }
      else r
    let r := { r with warnings := r.warnings ++ validation.warnings }
    if document_type == "bill" then
      let bv := verify_bill_total r.parsed_data
      let r := { r with bill_verification := some bv }
      if bv.success && !bv.is_total_correct then
        { r with errors := r.errors ++ ["Bill total does not match the sum of line items."] }
      else r
    else r
  else { r with errors := r.errors ++ ["No data could be extracted from document"] }

/-- Step 4 of `process_document`: face detection, skipped for bills or when
`detect_face` is off. -/
def stepFace (env : Env) (detect_face : Bool) (document_type : String) (r : PResult) :
    Except PResult PResult :=
  if detect_face && !(document_type == "bill") then
    match env.detectFaces with
    | .raises m => .error (failWith m r)
    | .returns f =>
        if f.success then
          let fd : FaceDet := { face_count := f.face_count, hasQuality := false, hasLiveness := false }
          match env.faceQuality with
          | .raises m => .error (failWith m { r with face_detection := some fd })
          | .returns q =>
              let fd := if q then { fd with hasQuality := true } else fd
              match env.faceLiveness with
              | .raises m => .error (failWith m { r with face_detection := some fd })
              | .returns lv =>
                  let fd := if lv then { fd with hasLiveness := true } else fd
                  .ok { r with face_detection := some fd }
        else .ok { r with warnings := r.warnings ++ ["Face detection failed: " ++ f.error] }
  else .ok r

/-- Step 5 of `process_document`: the overall-status decision table. -/
def statusOf (errors warnings : List String) : String :=
  if !errors.isEmpty then "completed_with_errors"
  else if !warnings.isEmpty then "completed_with_warnings"
  else "completed"

/-- The finalization assignment of `process_document`. -/
def finalize (r : PResult) : PResult :=
  { r with overall_status := statusOf r.errors r.warnings }

/-- Embedding of `DocumentProcessor.process_document(image_path,
document_type, use_gemini, detect_face)`: steps 1–5 in order inside one
`try`; the first raising collaborator call short-circuits to the `except`
clause. -/
def process_document (env : Env) (document_type : String)
    (use_gemini detect_face : Bool) : PResult :=
  match stepAuthenticity env (initResult document_type) with
  | .error r => r
  | .ok r1 =>
    match stepExtraction env use_gemini r1 with
    | .error r => r
    | .ok r2 =>
      let r3 := stepValidation env.now document_type r2
      match stepFace env detect_face document_type r3 with
      | .error r => r
      | .ok r4 => finalize r4

/-! ### Aadhaar-number regex extraction (document_parser.py, `_parse_aadhaar`)

Embedding of the two patterns `\b\d{4}\s?\d{4}\s?\d{4}\b` and `\b\d{12}\b`
under Python `re.search` semantics: leftmost starting position first, greedy
`\s?`, ASCII word characters. -/

def isWordChar (c : Char) : Bool := c.isAlpha || isDigitChar c || c == '_'

def isSpaceRe (c : Char) : Bool :=
  c == ' ' || c == '\t' || c == '\n' || c == '\r' || c == '\x0b' || c == '\x0c'

/-- Four consecutive digits. -/
def takeDigits4 : List Char → Option (List Char × List Char)
  | a :: b :: c :: d :: rest =>
      if isDigitChar a && isDigitChar b && isDigitChar c && isDigitChar d then
        some ([a, b, c, d], rest)
      else none
  | _ => none

/-- `\b` at the end of the match: end of string or a non-word character. -/
def endBoundary : List Char → Bool
  | [] => true
  | c :: _ => !isWordChar c

/-- `\d{4}\b` (final group of the aadhaar pattern). -/
def aadhaarGrp3 (l : List Char) : Option (List Char) :=
  (takeDigits4 l).bind fun p => if endBoundary p.2 then some p.1 else none

/-- `\d{4}\s?\d{4}\b`, with the greedy `\s?` tried space-first. -/
def aadhaarGrp23 (l : List Char) : Option (List Char) :=
  (takeDigits4 l).bind fun p =>
    (match p.2 with
     | c :: rest => if isSpaceRe c then (aadhaarGrp3 rest).map fun t => p.1 ++ c :: t else none
     | [] => none) <|>
    (aadhaarGrp3 p.2).map fun t => p.1 ++ t

/-- `\d{4}\s?\d{4}\s?\d{4}\b` after a start boundary. -/
def aadhaarGrp123 (l : List Char) : Option (List Char) :=
  (takeDigits4 l).bind fun p =>
    (match p.2 with
     | c :: rest => if isSpaceRe c then (aadhaarGrp23 rest).map fun t => p.1 ++ c :: t else none
     | [] => none) <|>
    (aadhaarGrp23 p.2).map fun t => p.1 ++ t

/-- `\b\d{12}\b` after a start boundary. -/
def twelveDigitsGrp (l : List Char) : Option (List Char) :=
  if (l.take 12).length == 12 && (l.take 12).all isDigitChar && endBoundary (l.drop 12) then
    some (l.take 12)
  else none

/-- `re.search`: scan starting positions left to right; a start `\b` requires
the previous character (if any) to be non-word. -/
def reSearch (matcher : List Char → Option (List Char)) :
    Option Char → List Char → Option (List Char)
  | prev, [] =>
      if (match prev with | none => true | some c => !isWordChar c) then matcher []
      else none
  | prev, c :: rest =>
      ((if (match prev with | none => true | some p => !isWordChar p) then
          matcher (c :: rest)
        else none) <|>
       reSearch matcher (some c) rest)

/-- The `aadhaar_number` extraction of `_parse_aadhaar` (lines 85–92): search
the spaced pattern, then the compact one; strip spaces from the match and
reformat as `XXXX XXXX XXXX`. -/
def parse_aadhaar_number (text : List Char) : Option String :=
  let mtch := reSearch aadhaarGrp123 none text <|> reSearch twelveDigitsGrp none text
  mtch.map fun m =>
    let num := m.filter fun c => !(c == ' ')
    ⟨num.take 4⟩ ++ " " ++ ⟨(num.drop 4).take 4⟩ ++ " " ++ ⟨num.drop 8⟩

/-! ### Background job tracker (backend/api/routes.py, `process_document_background`)

The job dict mutations are embedded as the sequence of (status, progress)
states one job passes through, starting from the PENDING record created by
the `/api/documents/process` endpoint.  `DocumentProcessor.process_document`
itself catches all exceptions, so the `except` branch of the background task
fires only when the surrounding glue raises (e.g. `get_document_processor()`
constructing `GeminiOCRService` without an API key). -/

inductive JStatus where
  | pending
  | processing
  | completed
  | failed
deriving Repr, DecidableEq

/-- One observable job state. -/
structure Job where
  status : JStatus
  progress : Nat
deriving Repr, DecidableEq

/-- States of one `ProcessingJob` in order: created PENDING/0; the task sets
PROCESSING, then progress 25; if the document id is unknown it sets FAILED and
returns; on success it sets progress 100 then COMPLETED; if the glue raises,
the handler sets FAILED and then resets progress to 0. -/
def backgroundTrace (docFound glueRaises : Bool) : List Job :=
  [⟨.pending, 0⟩, ⟨.processing, 0⟩, ⟨.processing, 25⟩] ++
  (if !docFound then [⟨.failed, 25⟩]
   else if glueRaises then [⟨.failed, 25⟩, ⟨.failed, 0⟩]
   else [⟨.processing, 100⟩, ⟨.completed, 100⟩])

/-- Adjacent progress values never decrease. -/
def progressMonotone : List Job → Bool
  | a :: b :: rest => a.progress ≤ b.progress && progressMonotone (b :: rest)
  | _ => true

def JStatus.isTerminal : JStatus → Bool
  | .completed => true
  | .failed => true
  | _ => false

/-- Every terminal state in the trace is preceded by a PROCESSING state. -/
def processingBeforeTerminal (t : List Job) : Bool :=
  go false t
where
  go (seen : Bool) : List Job → Bool
    | [] => true
    | j :: rest =>
        (if j.status.isTerminal then seen else true) &&
        go (seen || j.status == .processing) rest

/-! ### Auxiliary definitions for the statements -/

/-- The confidence formula as the spec states it: `min(100, round(total/120 * 100))`. -/
def claimConfidenceRound (total : Nat) : ℤ :=
  min 100 (round ((total : ℚ) * 100 / 120))

/-- Authenticity verdict of `detect`, with a dummy default for the failure
case (used only to state projections). -/
def detectAuth (img : ImageFeatures) : Authenticity :=
  ((detect img).authenticity).getD ⟨false, 0, "", none⟩

/-- Sub-scores of `detect`, with a dummy default for the failure case. -/
def detectScores (img : ImageFeatures) : SubScores :=
  ((detectAuth img).scores).getD ⟨0, 0, 0, 0, 0, 0⟩

/-- Image measurements whose only notable signal is an AI-software keyword in
the EXIF metadata: the metadata analyzer scores its full 25, all others 0. -/
def onlyExifSignal : ImageFeatures :=
  { openFail := false
    exif := { readError := false, present := true, hasAiKeyword := true, hasCameraTag := true }
    freq := { loadFail := false, failed := false, freqRat := 1 }
    hist := { failed := false, avgEntropy := 6, stdEntropy := 1 }
    noise := { loadFail := false, failed := false, noiseStd := 5, stdVariation := 1 }
    artifact := { formatName := "JPEG", bigEnough := true, arrayFail := false, avgBlockVar := 20 } }

/-- A benign authenticity response (success, not AI-generated). -/
def authOkResp : AuthResp :=
  { success := true, authenticity := ⟨false, 0, "", none⟩ }

/-- A voter-id field map that validates with no errors and no warnings. -/
def cleanVoterData : FieldMap := [("name", "Ab"), ("voter_id", "ABC1234567")]

/-- A run whose collaborators all behave, except that `detect_faces` raises. -/
def envFaceRaise : Env :=
  { checkAuth := .returns authOkResp
    extractStructured := .returns ⟨true, cleanVoterData, "", ""⟩
    geminiValidate := .returns ⟨false, ""⟩
    detectFaces := .raises "boom"
    faceQuality := .returns true
    faceLiveness := .returns true
    now := ⟨2026, 10, 12⟩ }

/-- A run whose `detect_faces` reports failure without raising. -/
def envFaceFail : Env :=
  { envFaceRaise with detectFaces := .returns ⟨false, 0, "No face detected in image"⟩ }

/-- A bill field map whose stated total (10) disagrees with the sum of its
line items (3 + 4). -/
def billDataMismatch : FieldMap := [("total", "10"), ("item1", "3"), ("item2", "4")]

/-- A bill run whose stated total disagrees with the line items. -/
def envBillMismatch : Env :=
  { envFaceRaise with
    extractStructured := .returns ⟨true, billDataMismatch, "", ""⟩
    detectFaces := .returns ⟨false, 0, "x"⟩ }

/-- A run whose authenticity check reports failure without raising. -/
def envAuthFail : Env :=
  { envFaceRaise with
    checkAuth := .returns ⟨false, ⟨false, 0, "", none⟩⟩
    detectFaces := .returns ⟨true, 1, ""⟩ }

/-! ### Stage lemmas -/

theorem append_one_mem {w s : String} {l : List String} (h : w ∈ l ++ [s]) :
    w ∈ l ∨ w = s := by
  rcases List.mem_append.mp h with h | h
  · exact .inl h
  · exact .inr (List.mem_singleton.mp h)

theorem statusOf_ne_failed (e w : List String) : statusOf e w ≠ "failed" := by
  unfold statusOf
  split
  · decide
  · split
    · decide
    · decide

theorem statusOf_with_error (e w : List String) (h : e ≠ []) :
    statusOf e w = "completed_with_errors" := by
  cases e with
  | nil => exact absurd rfl h
  | cons a l => rfl

theorem statusOf_only_warnings (w : List String) (h : w ≠ []) :
    statusOf [] w = "completed_with_warnings" := by
  cases w with
  | nil => exact absurd rfl h
  | cons a l => rfl

theorem finalize_errors (r : PResult) : (finalize r).errors = r.errors := rfl

theorem finalize_warnings (r : PResult) : (finalize r).warnings = r.warnings := rfl

theorem finalize_status (r : PResult) :
    (finalize r).overall_status = statusOf r.errors r.warnings := rfl

theorem finalize_parsed (r : PResult) : (finalize r).parsed_data = r.parsed_data := rfl

theorem finalize_auth (r : PResult) :
    (finalize r).authenticity_check = r.authenticity_check := rfl

theorem finalize_bill (r : PResult) :
    (finalize r).bill_verification = r.bill_verification := rfl

theorem stepAuthenticity_err_status {env : Env} {r e : PResult}
    (h : stepAuthenticity env r = .error e) : e.overall_status = "failed" := by
  unfold stepAuthenticity at h
  cases ha : env.checkAuth with
  | raises m =>
      rw [ha] at h
      dsimp only at h
      injection h with h2
      rw [← h2]
      rfl
  | returns a =>
      rw [ha] at h
      dsimp only at h
      split at h
      · split at h
        · exact Except.noConfusion h
        · exact Except.noConfusion h
      · exact Except.noConfusion h

theorem stepExtraction_err_status {env : Env} {ug : Bool} {r e : PResult}
    (h : stepExtraction env ug r = .error e) : e.overall_status = "failed" := by
  unfold stepExtraction at h
  split at h
  · cases ho : env.extractStructured with
    | raises m =>
        rw [ho] at h
        dsimp only at h
        injection h with h2
        rw [← h2]
        rfl
    | returns o =>
        rw [ho] at h
        dsimp only at h
        split at h
        · cases hv : env.geminiValidate with
          | raises m =>
              rw [hv] at h
              dsimp only at h
              injection h with h2
              rw [← h2]
              rfl
          | returns v =>
              rw [hv] at h
              dsimp only at h
              split at h
              · exact Except.noConfusion h
              · exact Except.noConfusion h
        · exact Except.noConfusion h
  · exact Except.noConfusion h

theorem stepFace_err_spec {env : Env} {df : Bool} {dt : String} {r e : PResult}
    (h : stepFace env df dt r = .error e) :
    e.overall_status = "failed" ∧ e.parsed_data = r.parsed_data ∧
    e.authenticity_check = r.authenticity_check ∧
    e.bill_verification = r.bill_verification ∧
    (∀ x, x ∈ r.errors → x ∈ e.errors) ∧
    (∀ w, w ∈ r.warnings → w ∈ e.warnings) := by
  unfold stepFace at h
  split at h
  · cases hf : env.detectFaces with
    | raises m =>
        rw [hf] at h
        dsimp only at h
        injection h with h2
        rw [← h2]
        exact ⟨rfl, rfl, rfl, rfl, fun x hx => List.mem_append_left _ hx,
          fun w hw => hw⟩
    | returns f =>
        rw [hf] at h
        dsimp only at h
        split at h
        · cases hq : env.faceQuality with
          | raises m =>
              rw [hq] at h
              dsimp only at h
              injection h with h2
              rw [← h2]
              exact ⟨rfl, rfl, rfl, rfl, fun x hx => List.mem_append_left _ hx,
                fun w hw => hw⟩
          | returns q =>
              rw [hq] at h
              dsimp only at h
              cases hl : env.faceLiveness with
              | raises m =>
                  rw [hl] at h
                  dsimp only at h
                  injection h with h2
                  rw [← h2]
                  exact ⟨rfl, rfl, rfl, rfl, fun x hx => List.mem_append_left _ hx,
                    fun w hw => hw⟩
              | returns lv =>
                  rw [hl] at h
                  dsimp only at h
                  exact Except.noConfusion h
        · exact Except.noConfusion h
  · exact Except.noConfusion h

theorem stepAuthenticity_ok_exists (env : Env) (r : PResult)
    (h : env.checkAuth.isReturns = true) :
    ∃ r', stepAuthenticity env r = .ok r' := by
  unfold stepAuthenticity
  cases ha : env.checkAuth with
  | raises m =>
      rw [ha] at h
      exact absurd h (by simp [Outcome.isReturns])
  | returns a =>
      dsimp only
      split
      · split
        · exact ⟨_, rfl⟩
        · exact ⟨_, rfl⟩
      · exact ⟨_, rfl⟩

theorem stepExtraction_ok_exists (env : Env) (ug : Bool) (r : PResult)
    (h1 : env.extractStructured.isReturns = true)
    (h2 : env.geminiValidate.isReturns = true) :
    ∃ r', stepExtraction env ug r = .ok r' := by
  unfold stepExtraction
  split
  · cases ho : env.extractStructured with
    | raises m =>
        rw [ho] at h1
        exact absurd h1 (by simp [Outcome.isReturns])
    | returns o =>
        dsimp only
        split
        · cases hv : env.geminiValidate with
          | raises m =>
              rw [hv] at h2
              exact absurd h2 (by simp [Outcome.isReturns])
          | returns v =>
              dsimp only
              split
              · exact ⟨_, rfl⟩
              · exact ⟨_, rfl⟩
        · exact ⟨_, rfl⟩
  · exact ⟨_, rfl⟩

theorem stepFace_ok_exists (env : Env) (df : Bool) (dt : String) (r : PResult)
    (h1 : env.detectFaces.isReturns = true)
    (h2 : env.faceQuality.isReturns = true)
    (h3 : env.faceLiveness.isReturns = true) :
    ∃ r', stepFace env df dt r = .ok r' := by
  unfold stepFace
  split
  · cases hf : env.detectFaces with
    | raises m =>
        rw [hf] at h1
        exact absurd h1 (by simp [Outcome.isReturns])
    | returns f =>
        dsimp only
        split
        · cases hq : env.faceQuality with
          | raises m =>
              rw [hq] at h2
              exact absurd h2 (by simp [Outcome.isReturns])
          | returns q =>
              dsimp only
              cases hl : env.faceLiveness with
              | raises m =>
                  rw [hl] at h3
                  exact absurd h3 (by simp [Outcome.isReturns])
              | returns lv =>
                  dsimp only
                  exact ⟨_, rfl⟩
        · exact ⟨_, rfl⟩
  · exact ⟨_, rfl⟩

theorem stepAuthenticity_ok_spec {env : Env} {r r' : PResult}
    (h : stepAuthenticity env r = .ok r') :
    r'.parsed_data = r.parsed_data ∧ r'.errors = r.errors ∧
    r'.bill_verification = r.bill_verification ∧
    (∀ w, w ∈ r.warnings → w ∈ r'.warnings) ∧
    (∀ w, w ∈ r'.warnings → w ∈ r.warnings ∨ w = "Image may be AI-generated." ∨
      w = "Could not perform image authenticity check.") := by
  unfold stepAuthenticity at h
  cases ha : env.checkAuth with
  | raises m =>
      rw [ha] at h
      dsimp only at h
      exact Except.noConfusion h
  | returns a =>
      rw [ha] at h
      dsimp only at h
      split at h
      · split at h
        · injection h with h2
          subst h2
          refine ⟨rfl, rfl, rfl, fun w hw => List.mem_append_left _ hw, fun w hw => ?_⟩
          rcases append_one_mem hw with hw | hw
          · exact .inl hw
          · exact .inr (.inl hw)
        · injection h with h2
          subst h2
          exact ⟨rfl, rfl, rfl, fun w hw => hw, fun w hw => .inl hw⟩
      · injection h with h2
        subst h2
        refine ⟨rfl, rfl, rfl, fun w hw => List.mem_append_left _ hw, fun w hw => ?_⟩
        rcases append_one_mem hw with hw | hw
        · exact .inl hw
        · exact .inr (.inr hw)

theorem stepAuthenticity_failure {env : Env} {a : AuthResp} (r : PResult)
    (ha : env.checkAuth = .returns a) (hs : a.success = false) :
    stepAuthenticity env r =
      .ok { r with warnings :=
        r.warnings ++ ["Could not perform image authenticity check."] } := by
  unfold stepAuthenticity
  rw [ha]
  dsimp only
  simp [hs]

theorem stepExtraction_ok_spec {env : Env} {ug : Bool} {r r' : PResult}
    (h : stepExtraction env ug r = .ok r') :
    r'.warnings = r.warnings ∧ r'.authenticity_check = r.authenticity_check ∧
    r'.bill_verification = r.bill_verification ∧
    (∀ x, x ∈ r.errors → x ∈ r'.errors) := by
  unfold stepExtraction at h
  split at h
  · cases ho : env.extractStructured with
    | raises m =>
        rw [ho] at h
        dsimp only at h
        exact Except.noConfusion h
    | returns o =>
        rw [ho] at h
        dsimp only at h
        split at h
        · cases hv : env.geminiValidate with
          | raises m =>
              rw [hv] at h
              dsimp only at h
              exact Except.noConfusion h
          | returns v =>
              rw [hv] at h
              dsimp only at h
              split at h
              · injection h with h2
                subst h2
                exact ⟨rfl, rfl, rfl, fun x hx => hx⟩
              · injection h with h2
                subst h2
                exact ⟨rfl, rfl, rfl, fun x hx => hx⟩
        · injection h with h2
          subst h2
          exact ⟨rfl, rfl, rfl, fun x hx => List.mem_append_left _ hx⟩
  · injection h with h2
    subst h2
    exact ⟨rfl, rfl, rfl, fun x hx => hx⟩

theorem stepExtraction_skip (env : Env) (r : PResult) :
    stepExtraction env false r = .ok r := rfl

theorem stepExtraction_success_spec {env : Env} {o : ExtractResp} {v : GvResp}
    (r : PResult) (ho : env.extractStructured = .returns o) (hos : o.success = true)
    (hv : env.geminiValidate = .returns v) :
    ∃ r', stepExtraction env true r = .ok r' ∧ r'.parsed_data = o.parsed_data ∧
      r'.warnings = r.warnings ∧ r'.errors = r.errors := by
  unfold stepExtraction
  rw [if_pos rfl, ho]
  dsimp only
  rw [hos, if_pos rfl, hv]
  dsimp only
  split
  · exact ⟨_, rfl, rfl, rfl, rfl⟩
  · exact ⟨_, rfl, rfl, rfl, rfl⟩

theorem stepFace_ok_spec {env : Env} {df : Bool} {dt : String} {r r' : PResult}
    (h : stepFace env df dt r = .ok r') :
    r'.parsed_data = r.parsed_data ∧ r'.errors = r.errors ∧
    r'.authenticity_check = r.authenticity_check ∧
    r'.bill_verification = r.bill_verification ∧
    (∀ w, w ∈ r.warnings → w ∈ r'.warnings) := by
  unfold stepFace at h
  split at h
  · cases hf : env.detectFaces with
    | raises m =>
        rw [hf] at h
        dsimp only at h
        exact Except.noConfusion h
    | returns f =>
        rw [hf] at h
        dsimp only at h
        split at h
        · cases hq : env.faceQuality with
          | raises m =>
              rw [hq] at h
              dsimp only at h
              exact Except.noConfusion h
          | returns q =>
              rw [hq] at h
              dsimp only at h
              cases hl : env.faceLiveness with
              | raises m =>
                  rw [hl] at h
                  dsimp only at h
                  exact Except.noConfusion h
              | returns lv =>
                  rw [hl] at h
                  dsimp only at h
                  injection h with h2
                  subst h2
                  exact ⟨rfl, rfl, rfl, rfl, fun w hw => hw⟩
        · injection h with h2
          subst h2
          exact ⟨rfl, rfl, rfl, rfl, fun w hw => List.mem_append_left _ hw⟩
  · injection h with h2
    subst h2
    exact ⟨rfl, rfl, rfl, rfl, fun w hw => hw⟩

theorem stepFace_skip {env : Env} {df : Bool} {dt : String} (r : PResult)
    (h : (df && !(dt == "bill")) = false) : stepFace env df dt r = .ok r := by
  unfold stepFace
  simp [h]

theorem stepFace_reported_failure {env : Env} {df : Bool} {dt : String} {f : FaceResp}
    (r : PResult) (hc : (df && !(dt == "bill")) = true)
    (hf : env.detectFaces = .returns f) (hs : f.success = false) :
    stepFace env df dt r =
      .ok { r with warnings := r.warnings ++ ["Face detection failed: " ++ f.error] } := by
  unfold stepFace
  rw [hc]
  dsimp only
  rw [hf]
  dsimp only
  simp [hs]

theorem stepValidation_empty {r : PResult} (now : SDate) (dt : String)
    (h : r.parsed_data = []) :
    stepValidation now dt r =
      { r with errors := r.errors ++ ["No data could be extracted from document"] } := by
  unfold stepValidation
  rw [h]
  rfl

theorem stepValidation_parsed (now : SDate) (dt : String) (r : PResult) :
    (stepValidation now dt r).parsed_data = r.parsed_data := by
  unfold stepValidation
  dsimp only
  repeat' split
  all_goals rfl

theorem stepValidation_auth (now : SDate) (dt : String) (r : PResult) :
    (stepValidation now dt r).authenticity_check = r.authenticity_check := by
  unfold stepValidation
  dsimp only
  repeat' split
  all_goals rfl

theorem stepValidation_warn_mem (now : SDate) (dt : String) (r : PResult) :
    ∀ w, w ∈ r.warnings → w ∈ (stepValidation now dt r).warnings := by
  intro w hw
  unfold stepValidation
  dsimp only
  repeat' split
  all_goals first
    | exact List.mem_append_left _ hw
    | exact hw

theorem validate_warnings_sub (data : FieldMap) (dt : String) (now : SDate) :
    ∀ w ∈ (validate_document_data data dt now).warnings,
      w = "Could not validate date of birth format" := by
  intro w hw
  unfold validate_document_data at hw
  dsimp only at hw
  repeat' split at hw
  all_goals simp_all

theorem stepValidation_warn_sub (now : SDate) (dt : String) (r : PResult) :
    ∀ w ∈ (stepValidation now dt r).warnings,
      w ∈ r.warnings ∨ w = "Could not validate date of birth format" := by
  intro w hw
  unfold stepValidation at hw
  dsimp only at hw
  repeat' split at hw
  all_goals
    first
      | (rcases List.mem_append.mp hw with hw | hw
         · exact .inl hw
         · exact .inr (validate_warnings_sub _ _ _ w hw))
      | exact .inl hw

theorem stepValidation_bill_props (now : SDate) (r : PResult)
    (h : r.parsed_data.isEmpty = false)
    (hbs : (verify_bill_total r.parsed_data).success = true)
    (hbc : (verify_bill_total r.parsed_data).is_total_correct = false) :
    (stepValidation now "bill" r).bill_verification =
      some (verify_bill_total r.parsed_data) ∧
    "Bill total does not match the sum of line items." ∈
      (stepValidation now "bill" r).errors := by
  unfold stepValidation
  dsimp only
  split
  · split
    · split
      all_goals split
      all_goals first
        | exact ⟨rfl, List.mem_append_right _ (List.mem_singleton.mpr rfl)⟩
        | (rename_i hcond
           exact absurd (by
             show ((verify_bill_total r.parsed_data).success &&
               !(verify_bill_total r.parsed_data).is_total_correct) = true
             rw [hbs, hbc]
             rfl) hcond)
    · rename_i hc2
      exact absurd rfl hc2
  · rename_i hc1
    rw [h] at hc1
    exact absurd rfl hc1

theorem process_eq (env : Env) (dt : String) (ug df : Bool) (r1 r2 r4 : PResult)
    (h1 : stepAuthenticity env (initResult dt) = .ok r1)
    (h2 : stepExtraction env ug r1 = .ok r2)
    (h3 : stepFace env df dt (stepValidation env.now dt r2) = .ok r4) :
    process_document env dt ug df = finalize r4 := by
  unfold process_document
  rw [h1]
  dsimp only
  rw [h2]
  dsimp only
  rw [h3]

theorem process_eq_face_err (env : Env) (dt : String) (ug df : Bool) (r1 r2 e : PResult)
    (h1 : stepAuthenticity env (initResult dt) = .ok r1)
    (h2 : stepExtraction env ug r1 = .ok r2)
    (h3 : stepFace env df dt (stepValidation env.now dt r2) = .error e) :
    process_document env dt ug df = e := by
  unfold process_document
  rw [h1]
  dsimp only
  rw [h2]
  dsimp only
  rw [h3]

theorem detect_authenticity_some (img : ImageFeatures) (h : img.openFail = false) :
    (detect img).authenticity = some (detectAuth img) := by
  unfold detectAuth detect
  rw [h]
  rfl

/-! ### Theorems -/

/-- C6 counterexample: on the run where the processing glue raises, the job's
progress is first 25 and then reset to 0 at the FAILED transition — the
progress sequence of the job is not monotonically non-decreasing. -/
theorem job_progress_rollback_counterexample :
    progressMonotone (backgroundTrace true true) = false := by decide

/-- C6 (amended): for one document's ProcessingJob, the status reaches
PROCESSING strictly before any terminal state; on runs where the glue does
not raise, progress is monotonically non-decreasing; and the only progress
values ever written are 0, 25 and 100 (there are no 50 / 75 boundaries). -/
theorem job_trace_properties :
    ∀ docFound glueRaises : Bool,
      processingBeforeTerminal (backgroundTrace docFound glueRaises) = true ∧
      (glueRaises = false →
        progressMonotone (backgroundTrace docFound glueRaises) = true) ∧
      (∀ j ∈ backgroundTrace docFound glueRaises,
        j.progress = 0 ∨ j.progress = 25 ∨ j.progress = 100) := by decide

/-- Witness for `job_trace_properties` at a successful run. -/
theorem job_trace_properties_witness :
    processingBeforeTerminal (backgroundTrace true false) = true ∧
    progressMonotone (backgroundTrace true false) = true := by
  have h := job_trace_properties true false
  exact ⟨h.1, h.2.1 rfl⟩

/-- C7 counterexample: on an image whose only signal is the EXIF analyzer
(total 25), the code computes `min(100, int(25/120*100)) = 20` by truncation,
while the claimed formula `min(100, round(25/120*100))` gives 21. -/
theorem confidence_truncates_counterexample :
    (detectAuth onlyExifSignal).confidence_score = 20 ∧
    (detectScores onlyExifSignal).total = 25 ∧
    claimConfidenceRound 25 = 21 ∧
    ((detectAuth onlyExifSignal).confidence_score : ℤ) ≠ claimConfidenceRound 25 := by
  have hc : (detectAuth onlyExifSignal).confidence_score = 20 := by
    norm_num +decide [detectAuth, detect, onlyExifSignal, check_exif_metadata,
      analyze_frequency_domain, analyze_histogram, analyze_noise_patterns, check_jpeg_artifacts]
  have ht : (detectScores onlyExifSignal).total = 25 := by
    norm_num +decide [detectScores, detectAuth, detect, onlyExifSignal, check_exif_metadata,
      analyze_frequency_domain, analyze_histogram, analyze_noise_patterns, check_jpeg_artifacts]
  have hr : claimConfidenceRound 25 = 21 := by
    show min (100 : ℤ) (round ((25 : ℚ) * 100 / 120)) = 21
    norm_num [round_eq]
  refine ⟨hc, ht, hr, ?_⟩
  rw [hc, hr]
  decide

/-- C7 (amended): for every image input each analyzer sub-score stays within
its declared maximum (metadata 25, frequency 20, histogram 15, noise 25,
artifacts 20); the total is their sum; `is_ai_generated` holds exactly when
the total is at least 40; and `confidence_score = min(100, ⌊total/120·100⌋)`
(truncating integer division, not rounding), which lies within 0–100. -/
theorem scorer_boundedness (img : ImageFeatures) (h : img.openFail = false) :
    check_exif_metadata img.exif ≤ 25 ∧
    analyze_frequency_domain img.freq ≤ 20 ∧
    analyze_histogram img.hist ≤ 15 ∧
    analyze_noise_patterns img.noise ≤ 25 ∧
    check_jpeg_artifacts img.artifact ≤ 20 ∧
    (detectScores img).total =
      check_exif_metadata img.exif + analyze_frequency_domain img.freq +
      analyze_histogram img.hist + analyze_noise_patterns img.noise +
      check_jpeg_artifacts img.artifact ∧
    ((detectAuth img).is_ai_generated = true ↔ 40 ≤ (detectScores img).total) ∧
    (detectAuth img).confidence_score = min 100 ((detectScores img).total * 100 / 120) ∧
    (detectAuth img).confidence_score ≤ 100 := by
  have hexif : check_exif_metadata img.exif ≤ 25 := min_le_right _ _
  have hfreq : analyze_frequency_domain img.freq ≤ 20 := by
    unfold analyze_frequency_domain; split
    · omega
    · exact min_le_right _ _
  have hhist : analyze_histogram img.hist ≤ 15 := by
    unfold analyze_histogram; split
    · omega
    · exact min_le_right _ _
  have hnoise : analyze_noise_patterns img.noise ≤ 25 := by
    unfold analyze_noise_patterns; split
    · omega
    · exact min_le_right _ _
  have hart : check_jpeg_artifacts img.artifact ≤ 20 := by
    unfold check_jpeg_artifacts
    dsimp only
    split
    · exact min_le_right _ _
    · exact min_le_right _ _
  have hauth : detectAuth img =
      { is_ai_generated := decide (check_exif_metadata img.exif +
          analyze_frequency_domain img.freq + analyze_histogram img.hist +
          analyze_noise_patterns img.noise + check_jpeg_artifacts img.artifact ≥ 40)
        confidence_score := min 100 ((check_exif_metadata img.exif +
          analyze_frequency_domain img.freq + analyze_histogram img.hist +
          analyze_noise_patterns img.noise + check_jpeg_artifacts img.artifact) * 100 / 120)
        explanation := generate_explanation (check_exif_metadata img.exif)
          (analyze_frequency_domain img.freq) (analyze_histogram img.hist)
          (analyze_noise_patterns img.noise) (check_jpeg_artifacts img.artifact)
          (check_exif_metadata img.exif + analyze_frequency_domain img.freq +
           analyze_histogram img.hist + analyze_noise_patterns img.noise +
           check_jpeg_artifacts img.artifact)
        scores := some
          { exif := check_exif_metadata img.exif
            frequency := analyze_frequency_domain img.freq
            histogram := analyze_histogram img.hist
            noise := analyze_noise_patterns img.noise
            artifacts := check_jpeg_artifacts img.artifact
            total := check_exif_metadata img.exif + analyze_frequency_domain img.freq +
              analyze_histogram img.hist + analyze_noise_patterns img.noise +
              check_jpeg_artifacts img.artifact } } := by
    unfold detectAuth detect
    rw [h]
    rfl
  have hscores : detectScores img =
      { exif := check_exif_metadata img.exif
        frequency := analyze_frequency_domain img.freq
        histogram := analyze_histogram img.hist
        noise := analyze_noise_patterns img.noise
        artifacts := check_jpeg_artifacts img.artifact
        total := check_exif_metadata img.exif + analyze_frequency_domain img.freq +
          analyze_histogram img.hist + analyze_noise_patterns img.noise +
          check_jpeg_artifacts img.artifact } := by
    unfold detectScores
    rw [hauth]
    rfl
  refine ⟨hexif, hfreq, hhist, hnoise, hart, ?_, ?_, ?_, ?_⟩
  · rw [hscores]
  · rw [hauth, hscores]
    simp [decide_eq_true_iff, ge_iff_le]
  · rw [hauth, hscores]
  · rw [hauth]
    exact min_le_left _ _

/-- Witness for `scorer_boundedness` at a concrete image measurement. -/
theorem scorer_boundedness_witness :
    check_exif_metadata onlyExifSignal.exif ≤ 25 ∧
    (detectAuth onlyExifSignal).confidence_score ≤ 100 := by
  have h := scorer_boundedness onlyExifSignal rfl
  exact ⟨h.1, h.2.2.2.2.2.2.2.2⟩

/-- C8: for each of the five document types, validating the empty field map
yields exactly the list of "Missing required field" messages, one per
required field in order, no other errors, and `is_valid = false`. -/
theorem required_field_completeness (dt : String) (now : SDate)
    (h : dt ∈ ["aadhaar", "pan", "driving_license", "passport", "voter_id"]) :
    (validate_document_data [] dt now).errors =
      (REQUIRED_FIELDS dt).map (fun f => "Missing required field: " ++ f) ∧
    (validate_document_data [] dt now).is_valid = false := by
  simp only [List.mem_cons, List.mem_singleton] at h
  rcases h with h | h | h | h | h | h
  · subst h; exact ⟨rfl, rfl⟩
  · subst h; exact ⟨rfl, rfl⟩
  · subst h; exact ⟨rfl, rfl⟩
  · subst h; exact ⟨rfl, rfl⟩
  · subst h; exact ⟨rfl, rfl⟩
  · cases h

/-- Witness for `required_field_completeness` at the aadhaar type. -/
theorem required_field_completeness_witness :
    (validate_document_data [] "aadhaar" ⟨2026, 10, 12⟩).errors =
      (REQUIRED_FIELDS "aadhaar").map (fun f => "Missing required field: " ++ f) ∧
    (validate_document_data [] "aadhaar" ⟨2026, 10, 12⟩).is_valid = false :=
  required_field_completeness "aadhaar" ⟨2026, 10, 12⟩ (by decide)

/-- C9 counterexample: the text `"9123456789012"` contains the well-formed
identifier `"123456789012"` as a substring, yet regex extraction (both the
spaced and the compact pattern require word boundaries) produces no
`aadhaar_number` at all. -/
theorem aadhaar_substring_counterexample :
    ("123456789012".toList <:+: "9123456789012".toList) ∧
    parse_aadhaar_number "9123456789012".toList ≠ some "1234 5678 9012" := by
  constructor
  · decide
  · decide

/-- C9 (amended): when the well-formed identifier `"123456789012"` occurs at
word boundaries — in particular as the whole raw text — regex extraction
produces `"1234 5678 9012"`, and validating a field map carrying that value
strips the internal whitespace and accepts it with no format error. -/
theorem aadhaar_format_roundtrip (now : SDate) :
    parse_aadhaar_number "123456789012".toList = some "1234 5678 9012" ∧
    stripSpaces "1234 5678 9012" = "123456789012" ∧
    twelveDigitsOk (stripSpaces "1234 5678 9012") = true ∧
    "Invalid Aadhaar number format" ∉
      (validate_document_data [("aadhaar_number", "1234 5678 9012")] "aadhaar" now).errors := by
  refine ⟨by decide, by decide, by decide, ?_⟩
  show "Invalid Aadhaar number format" ∉
    ["Missing required field: name", "Missing required field: dob"]
  decide

/-- C10 counterexample: `validate_document_data` reads the ambient clock for
the future-DOB check; the same field map validated at two different times
yields different reports (a future-date error in 2025, none in 2031). -/
theorem validate_clock_dependence_counterexample :
    validate_document_data [("dob", "01/01/2030")] "aadhaar" ⟨2025, 1, 1⟩ ≠
    validate_document_data [("dob", "01/01/2030")] "aadhaar" ⟨2031, 1, 1⟩ := by
  decide

/-- C10 (amended): `validate_document_data` is a pure function of the field
map, the document type and the current date; in particular, whenever the
field map carries no `dob` field, the report is identical at any two times —
the future-DOB comparison is the only clock dependence. -/
theorem validate_pure_given_clock (data : FieldMap) (dt : String) (now now' : SDate)
    (h : data.lookup "dob" = none) :
    validate_document_data data dt now = validate_document_data data dt now' := by
  unfold validate_document_data
  rw [h]

/-- Witness for `validate_pure_given_clock`. -/
theorem validate_pure_given_clock_witness :
    validate_document_data [("name", "Ab")] "voter_id" ⟨2025, 1, 1⟩ =
    validate_document_data [("name", "Ab")] "voter_id" ⟨2031, 1, 1⟩ :=
  validate_pure_given_clock [("name", "Ab")] "voter_id" ⟨2025, 1, 1⟩ ⟨2031, 1, 1⟩ rfl

/-- C2: at termination, `overall_status` is FAILED or follows the decision
table on `(errors, warnings)` — non-empty errors ⇒ completed_with_errors,
else non-empty warnings ⇒ completed_with_warnings, else completed — and when
no collaborator call raises the status follows the table (FAILED arises only
from a raise). -/
theorem status_invariant (env : Env) (dt : String) (ug df : Bool) :
    ((process_document env dt ug df).overall_status = "failed" ∨
      (process_document env dt ug df).overall_status =
        statusOf (process_document env dt ug df).errors
          (process_document env dt ug df).warnings) ∧
    (env.noRaise = true →
      (process_document env dt ug df).overall_status =
        statusOf (process_document env dt ug df).errors
          (process_document env dt ug df).warnings) := by
  constructor
  · unfold process_document
    cases h1 : stepAuthenticity env (initResult dt) with
    | error e => exact .inl (stepAuthenticity_err_status h1)
    | ok r1 =>
      dsimp only
      cases h2 : stepExtraction env ug r1 with
      | error e => exact .inl (stepExtraction_err_status h2)
      | ok r2 =>
        dsimp only
        cases h3 : stepFace env df dt (stepValidation env.now dt r2) with
        | error e => exact .inl (stepFace_err_spec h3).1
        | ok r4 => exact .inr rfl
  · intro hnr
    simp only [Env.noRaise, Bool.and_eq_true] at hnr
    obtain ⟨⟨⟨⟨⟨hA, hE⟩, hG⟩, hF⟩, hQ⟩, hL⟩ := hnr
    obtain ⟨r1, h1⟩ := stepAuthenticity_ok_exists env (initResult dt) hA
    obtain ⟨r2, h2⟩ := stepExtraction_ok_exists env ug r1 hE hG
    obtain ⟨r4, h3⟩ := stepFace_ok_exists env df dt (stepValidation env.now dt r2) hF hQ hL
    rw [process_eq env dt ug df r1 r2 r4 h1 h2 h3]
    rfl

/-- Witness for `status_invariant` at a concrete non-raising run. -/
theorem status_invariant_witness :
    (process_document envFaceFail "voter_id" true true).overall_status =
      statusOf (process_document envFaceFail "voter_id" true true).errors
        (process_document envFaceFail "voter_id" true true).warnings :=
  (status_invariant envFaceFail "voter_id" true true).2 rfl

/-- C1 counterexample: a run in which every stage behaves except that the
face collaborator raises — no other stage recorded any error, yet the run
terminates with overall_status `failed` (the exception is caught only at the
whole-pipeline boundary), not COMPLETED/COMPLETED_WITH_WARNINGS as claimed. -/
theorem face_raise_yields_failed :
    (process_document envFaceRaise "voter_id" true true).overall_status = "failed" ∧
    (process_document envFaceRaise "voter_id" true true).errors =
      ["Processing failed: boom"] := by
  exact ⟨rfl, rfl⟩

/-- C1 (amended): stage isolation holds for failures *reported* by a
collaborator (success = false), not for raised exceptions: when no
collaborator call raises and the face collaborator reports failure, the
warnings contain the face-detection-failure message and, if no stage recorded
an error, the run terminates with completed_with_warnings; a collaborator
exception is caught only at the single pipeline-level boundary, where it
yields FAILED. -/
theorem face_failure_isolation (env : Env) (dt : String) (ug : Bool) (f : FaceResp)
    (hnr : env.noRaise = true) (hf : env.detectFaces = .returns f)
    (hs : f.success = false) (hdt : (dt == "bill") = false) :
    ("Face detection failed: " ++ f.error) ∈
      (process_document env dt ug true).warnings ∧
    ((process_document env dt ug true).errors = [] →
      (process_document env dt ug true).overall_status = "completed_with_warnings") := by
  simp only [Env.noRaise, Bool.and_eq_true] at hnr
  obtain ⟨⟨⟨⟨⟨hA, hE⟩, hG⟩, hF⟩, hQ⟩, hL⟩ := hnr
  obtain ⟨r1, h1⟩ := stepAuthenticity_ok_exists env (initResult dt) hA
  obtain ⟨r2, h2⟩ := stepExtraction_ok_exists env ug r1 hE hG
  have hcond : (true && !(dt == "bill")) = true := by rw [hdt]; rfl
  have h3 := stepFace_reported_failure (stepValidation env.now dt r2) hcond hf hs
  rw [process_eq env dt ug true r1 r2 _ h1 h2 h3]
  constructor
  · show ("Face detection failed: " ++ f.error) ∈
      (stepValidation env.now dt r2).warnings ++ ["Face detection failed: " ++ f.error]
    exact List.mem_append_right _ (List.mem_singleton.mpr rfl)
  · intro he
    have he' : (stepValidation env.now dt r2).errors = [] := he
    show statusOf (stepValidation env.now dt r2).errors
      ((stepValidation env.now dt r2).warnings ++ ["Face detection failed: " ++ f.error]) =
      "completed_with_warnings"
    rw [he']
    exact statusOf_only_warnings _ (by simp)

/-- Witness for `face_failure_isolation` at a concrete run. -/
theorem face_failure_isolation_witness :
    ("Face detection failed: No face detected in image") ∈
      (process_document envFaceFail "voter_id" true true).warnings ∧
    (process_document envFaceFail "voter_id" true true).overall_status =
      "completed_with_warnings" := by
  have h := face_failure_isolation envFaceFail "voter_id" true
    ⟨false, 0, "No face detected in image"⟩ rfl rfl rfl rfl
  exact ⟨h.1, h.2 rfl⟩

/-- C3: the cloud verdict is used exactly when the cloud call succeeds, and
the local heuristic scorer is the designated fallback (never the reverse);
a failure of the whole authenticity stage is recorded as the warning
"Could not perform image authenticity check.", the stage output stays empty,
and the pipeline continues to a non-FAILED terminal status. -/
theorem authenticity_fallback_order :
    (∀ (a : Authenticity) (img : ImageFeatures),
      check_image_authenticity (some a) img = { success := true, authenticity := a }) ∧
    (∀ (img : ImageFeatures) (a : Authenticity), (detect img).authenticity = some a →
      check_image_authenticity none img =
        { success := (detect img).success, authenticity := a }) ∧
    (∀ (env : Env) (dt : String) (ug df : Bool) (a : AuthResp),
      env.noRaise = true → env.checkAuth = .returns a → a.success = false →
      "Could not perform image authenticity check." ∈
        (process_document env dt ug df).warnings ∧
      (process_document env dt ug df).authenticity_check = none ∧
      (process_document env dt ug df).overall_status ≠ "failed") := by
  refine ⟨fun a img => rfl, fun img a h => ?_, fun env dt ug df a hnr ha hs => ?_⟩
  · unfold check_image_authenticity
    dsimp only
    rw [h]
  · simp only [Env.noRaise, Bool.and_eq_true] at hnr
    obtain ⟨⟨⟨⟨⟨hA, hE⟩, hG⟩, hF⟩, hQ⟩, hL⟩ := hnr
    have h1 := stepAuthenticity_failure (initResult dt) ha hs
    obtain ⟨r2, h2⟩ := stepExtraction_ok_exists env ug _ hE hG
    obtain ⟨r4, h3⟩ := stepFace_ok_exists env df dt (stepValidation env.now dt r2) hF hQ hL
    rw [process_eq env dt ug df _ r2 r4 h1 h2 h3]
    have e2 := stepExtraction_ok_spec h2
    have e4 := stepFace_ok_spec h3
    refine ⟨?_, ?_, ?_⟩
    · show "Could not perform image authenticity check." ∈ r4.warnings
      apply e4.2.2.2.2
      apply stepValidation_warn_mem
      rw [e2.1]
      exact List.mem_append_right _ (List.mem_singleton.mpr rfl)
    · show r4.authenticity_check = none
      rw [e4.2.2.1, stepValidation_auth, e2.2.1]
      rfl
    · rw [finalize_status]
      exact statusOf_ne_failed _ _

/-- Witness for `authenticity_fallback_order` at concrete inputs. -/
theorem authenticity_fallback_order_witness :
    check_image_authenticity (some ⟨true, 77, "cloud", none⟩) onlyExifSignal =
      { success := true, authenticity := ⟨true, 77, "cloud", none⟩ } ∧
    check_image_authenticity none onlyExifSignal =
      { success := (detect onlyExifSignal).success,
        authenticity := detectAuth onlyExifSignal } ∧
    "Could not perform image authenticity check." ∈
      (process_document envAuthFail "voter_id" true true).warnings := by
  have h := authenticity_fallback_order
  exact ⟨h.1 ⟨true, 77, "cloud", none⟩ onlyExifSignal,
    h.2.1 onlyExifSignal (detectAuth onlyExifSignal)
      (detect_authenticity_some onlyExifSignal rfl),
    (h.2.2 envAuthFail "voter_id" true true ⟨false, ⟨false, 0, "", none⟩⟩ rfl rfl rfl).1⟩

/-- C4 counterexample: the regex extractor works ("123456789012" yields
"1234 5678 9012"), yet a run with remote extraction disabled
(use_gemini = false) leaves parsed_data empty and records the no-data error —
the regex fallback path is commented out and never invoked. -/
theorem extraction_no_fallback_counterexample :
    parse_aadhaar_number "123456789012".toList = some "1234 5678 9012" ∧
    (process_document envFaceFail "aadhaar" false true).parsed_data = [] ∧
    "No data could be extracted from document" ∈
      (process_document envFaceFail "aadhaar" false true).errors := by
  exact ⟨by decide, rfl, by decide⟩

/-- C4 (amended): for every run invoked with use_gemini = false, no
extraction is performed at all: the field map stays empty and the error
"No data could be extracted from document" is recorded (the PaddleOCR/regex
fallback exists only as commented-out code). -/
theorem extraction_disabled_no_data (env : Env) (dt : String) (df : Bool) (a : AuthResp)
    (ha : env.checkAuth = .returns a) :
    (process_document env dt false df).parsed_data = [] ∧
    "No data could be extracted from document" ∈
      (process_document env dt false df).errors := by
  obtain ⟨r1, h1⟩ := stepAuthenticity_ok_exists env (initResult dt) (by rw [ha]; rfl)
  have hp1 : r1.parsed_data = [] := (stepAuthenticity_ok_spec h1).1
  have h2 : stepExtraction env false r1 = .ok r1 := stepExtraction_skip env r1
  have h3eq : stepValidation env.now dt r1 =
      { r1 with errors := r1.errors ++ ["No data could be extracted from document"] } :=
    stepValidation_empty env.now dt hp1
  cases h3 : stepFace env df dt (stepValidation env.now dt r1) with
  | error e =>
      have hpe := stepFace_err_spec h3
      rw [process_eq_face_err env dt false df r1 r1 e h1 h2 h3]
      constructor
      · rw [hpe.2.1, h3eq]
        exact hp1
      · apply hpe.2.2.2.2.1
        rw [h3eq]
        exact List.mem_append_right _ (List.mem_singleton.mpr rfl)
  | ok r4 =>
      have hsp := stepFace_ok_spec h3
      rw [process_eq env dt false df r1 r1 r4 h1 h2 h3]
      constructor
      · rw [finalize_parsed, hsp.1, h3eq]
        exact hp1
      · rw [finalize_errors, hsp.2.1, h3eq]
        exact List.mem_append_right _ (List.mem_singleton.mpr rfl)

/-- Witness for `extraction_disabled_no_data` at a concrete run. -/
theorem extraction_disabled_no_data_witness :
    (process_document envAuthFail "aadhaar" false true).parsed_data = [] ∧
    "No data could be extracted from document" ∈
      (process_document envAuthFail "aadhaar" false true).errors :=
  extraction_disabled_no_data envAuthFail "aadhaar" true ⟨false, ⟨false, 0, "", none⟩⟩ rfl

/-- C5: on a bill run whose field map is non-empty, the orchestrator runs the
stated-total-versus-sum-of-line-items check (modelled from the spec, the
method body being absent from the sources); a mismatch is recorded as an
error — never as a warning — and the run reaches completed_with_errors, not
FAILED. -/
theorem bill_total_mismatch_error (env : Env) (df : Bool) (o : ExtractResp)
    (a : AuthResp) (v : GvResp)
    (ha : env.checkAuth = .returns a)
    (ho : env.extractStructured = .returns o) (hos : o.success = true)
    (hv : env.geminiValidate = .returns v)
    (hne : o.parsed_data.isEmpty = false)
    (hbs : (verify_bill_total o.parsed_data).success = true)
    (hbc : (verify_bill_total o.parsed_data).is_total_correct = false) :
    (process_document env "bill" true df).bill_verification =
      some (verify_bill_total o.parsed_data) ∧
    "Bill total does not match the sum of line items." ∈
      (process_document env "bill" true df).errors ∧
    (∀ w ∈ (process_document env "bill" true df).warnings,
      w ≠ "Bill total does not match the sum of line items.") ∧
    (process_document env "bill" true df).overall_status = "completed_with_errors" := by
  obtain ⟨r1, h1⟩ := stepAuthenticity_ok_exists env (initResult "bill") (by rw [ha]; rfl)
  have spec1 := stepAuthenticity_ok_spec h1
  obtain ⟨r2, h2, e2p, e2w, e2e⟩ := stepExtraction_success_spec r1 ho hos hv
  have hne2 : r2.parsed_data.isEmpty = false := by rw [e2p]; exact hne
  have hbs2 : (verify_bill_total r2.parsed_data).success = true := by rw [e2p]; exact hbs
  have hbc2 : (verify_bill_total r2.parsed_data).is_total_correct = false := by
    rw [e2p]; exact hbc
  have hbill := stepValidation_bill_props env.now r2 hne2 hbs2 hbc2
  have h3 : stepFace env df "bill" (stepValidation env.now "bill" r2) =
      .ok (stepValidation env.now "bill" r2) := stepFace_skip _ (by simp)
  rw [process_eq env "bill" true df r1 r2 _ h1 h2 h3]
  refine ⟨?_, ?_, ?_, ?_⟩
  · rw [finalize_bill, hbill.1, e2p]
  · rw [finalize_errors]
    exact hbill.2
  · intro w hw
    rw [finalize_warnings] at hw
    rcases stepValidation_warn_sub env.now "bill" r2 w hw with hw | hw
    · rw [e2w] at hw
      rcases spec1.2.2.2.2 w hw with hw | hw | hw
      · simp [initResult] at hw
      · rw [hw]; decide
      · rw [hw]; decide
    · rw [hw]; decide
  · rw [finalize_status]
    exact statusOf_with_error _ _ (List.ne_nil_of_mem hbill.2)

/-- Witness for `bill_total_mismatch_error` at a concrete mismatching bill. -/
theorem bill_total_mismatch_error_witness :
    "Bill total does not match the sum of line items." ∈
      (process_document envBillMismatch "bill" true true).errors ∧
    (process_document envBillMismatch "bill" true true).overall_status =
      "completed_with_errors" := by
  have hbv : verify_bill_total billDataMismatch = ⟨true, 10, 7, false, 3⟩ := by
    have h10 : parseDecimal "10" = some 10 := by
      simp +decide [parseDecimal, digitsToNat?, digitVal, isDigitChar]
    have h3 : parseDecimal "3" = some 3 := by
      simp +decide [parseDecimal, digitsToNat?, digitVal, isDigitChar]
    have h4 : parseDecimal "4" = some 4 := by
      simp +decide [parseDecimal, digitsToNat?, digitVal, isDigitChar]
    simp +decide [verify_bill_total, billDataMismatch, List.lookup, List.filterMap_cons,
      h10, h3, h4]
    norm_num
  have h := bill_total_mismatch_error envBillMismatch true
    ⟨true, billDataMismatch, "", ""⟩ authOkResp ⟨false, ""⟩
    rfl rfl rfl rfl rfl (by rw [hbv]) (by rw [hbv])
  exact ⟨h.2.1, h.2.2.2⟩

end DocExt
